import Mathlib

/-!
Verification development for the `computer-agent` desktop automation app.

The Python sources are shallowly embedded here:
* `computer.py`  — `ComputerControl`: action safety validation, coordinate
  mapping between the model's 1024x640 space and the physical screen,
  `perform_action` dispatch, and the screenshot cache cleaner;
* `anthropic.py` — `AnthropicClient`: message-history cleaning (tool_use /
  tool_result pairing repair), conversation hashing for the response cache,
  the no-tool-call repair, and the retry loop of `get_next_action`;
* `store.py`     — `Store`: `extract_action` decoding and the screenshot
  branch of `run_agent`;
* `config.py`    — the relevant `API_CONFIG` defaults.

Python floats are modelled as rationals (`ℚ`), strings as `String`, dicts as
association lists (Python dict keys are unique, so first-match lookup agrees
with dict lookup), and JSON-ish values by the inductive `JVal`.  Where the
Python code can raise, the embedding makes the exceptional path explicit.
-/

/-- JSON-like Python values as they appear in tool inputs and action dicts:
strings, numbers (floats modelled as `ℚ`), booleans, `None`, and lists. -/
inductive JVal where
  | str (s : String)
  | num (q : ℚ)
  | bool (b : Bool)
  | pynone
  | list (xs : List JVal)

/-- Python truthiness (`bool(v)`) for the values of `JVal`:  empty string,
zero, `False`, `None` and the empty list are falsy, everything else truthy. -/
def pyTruthy : JVal → Bool
  | .str s => !s.isEmpty
  | .num q => decide (q ≠ 0)
  | .bool b => b
  | .pynone => false
  | .list xs => !xs.isEmpty

/-- Python `str(v)` as used inside f-strings for error messages.  Numeric and
list formatting is approximated; only string/bool/None formatting is relied
on by any theorem below. -/
def pyStr : JVal → String
  | .str s => s
  | .num q => toString q
  | .bool true => "True"
  | .bool false => "False"
  | .pynone => "None"
  | .list _ => "[...]"

/-- Python substring test `pat in s`, on the character lists of the strings. -/
def containsSub (pat s : String) : Bool :=
  s.toList.tails.any fun t => pat.toList.isPrefixOf t

/-- Python `s.lower()`: lower-case every character. -/
def pyLower (s : String) : String := String.mk (s.toList.map Char.toLower)

/-- An action dict, as produced by `Store.extract_action` and consumed by
`ComputerControl.perform_action` (computer.py). -/
abbrev ActionDict := List (String × JVal)

/-- computer.py lines 719-724: the denylist of destructive text fragments
checked by `_validate_action_safety` for `type` (text-entry) actions. -/
def dangerous_patterns : List String :=
  ["sudo ", "rm -rf", "format", "mkfs",
   ";shutdown", ";reboot", ";halt",
   "dd if=", "> /dev/", "> /etc/",
   "chmod 777", "chown root"]

/-- computer.py lines 692-753, `ComputerControl._validate_action_safety`.
`aiW`/`aiH` are the configured model-space dimensions (`ai_display_width`,
`ai_display_height`; 1024x640 by default).  Faithful points:
* a missing `type` key returns `False`;
* the denylist is consulted only when `action['type'] == 'type'`, on
  `action['text'].lower()`; a missing or non-string `text` returns `False`
  (a non-string raises `AttributeError`, caught by the handler that returns
  `False`);
* the coordinate bounds `0 <= x <= ai_width * 1.1` and
  `0 <= y <= ai_height * 1.1` are checked only for `mouse_move` and
  `left_click_drag`; a missing or non-numeric coordinate returns `False`;
* every other action type returns `True`. -/
def validateActionSafety (aiW aiH : ℚ) (a : ActionDict) : Bool :=
  match List.lookup "type" a with
  | none => false
  | some (JVal.str ty) =>
    if ty = "type" then
      match List.lookup "text" a with
      | some (JVal.str text) =>
        !(dangerous_patterns.any fun p => containsSub p (pyLower text))
      | some _ => false
      | none => false
    else if ty = "mouse_move" ∨ ty = "left_click_drag" then
      match List.lookup "x" a, List.lookup "y" a with
      | some (JVal.num x), some (JVal.num y) =>
        decide (0 ≤ x ∧ x ≤ aiW * (11 / 10) ∧ 0 ≤ y ∧ y ≤ aiH * (11 / 10))
      | _, _ => false
    else true
  | some _ => true

/-- computer.py lines 677-680, `ComputerControl.map_from_ai_space`. -/
def map_from_ai_space (aiW aiH sw sh x y : ℚ) : ℚ × ℚ :=
  (x * sw / aiW, y * sh / aiH)

/-- computer.py lines 682-685, `ComputerControl.map_to_ai_space`. -/
def map_to_ai_space (aiW aiH sw sh x y : ℚ) : ℚ × ℚ :=
  (x * aiW / sw, y * aiH / sh)

/-- OS input primitives invoked through pyautogui by `perform_action`. -/
inductive Prim where
  | moveTo (x y : ℚ)
  | click
  | rightClick
  | middleClick
  | doubleClick
  | dragTo (x y : ℚ)
  | writeText (t : String)
  | press (k : String)

/-- Result of `ComputerControl.perform_action`: the error-indicator image
produced by `_generate_error_image`, a captured screenshot (contents
abstracted), a cursor position, or an exception propagated to the caller. -/
inductive PAResult where
  | errorImage
  | screenshot
  | cursorPos (x y : ℚ)
  | raised (msg : String)

/-- computer.py lines 221-333, `ComputerControl.perform_action`, restricted to
the control flow and the OS input primitives (screenshot capture parameters
are dispatched to `take_screenshot`, whose image contents are abstracted as
`PAResult.screenshot`).  The ambient pyautogui state enters as parameters:
`lastClick` is `self.last_click_position`, `cur` the current mouse position.
The safety gate is first: a rejected action short-circuits to
`_generate_error_image()` with no OS primitive invoked. -/
def perform_action (aiW aiH sw sh : ℚ) (lastClick : Option (ℚ × ℚ))
    (cur : ℚ × ℚ) (a : ActionDict) : PAResult × List Prim :=
  if !(validateActionSafety aiW aiH a) then (.errorImage, [])
  else
    match List.lookup "type" a with
    | some (JVal.str "mouse_move") =>
      match List.lookup "x" a, List.lookup "y" a with
      | some (JVal.num x), some (JVal.num y) =>
        let p := map_from_ai_space aiW aiH sw sh x y
        (.screenshot, [.moveTo p.1 p.2])
      | _, _ => (.raised "KeyError", [])
    | some (JVal.str "left_click") => (.screenshot, [.click])
    | some (JVal.str "right_click") => (.screenshot, [.rightClick])
    | some (JVal.str "middle_click") => (.screenshot, [.middleClick])
    | some (JVal.str "double_click") => (.screenshot, [.doubleClick])
    | some (JVal.str "left_click_drag") =>
      match List.lookup "x" a, List.lookup "y" a with
      | some (JVal.num x), some (JVal.num y) =>
        let p := map_from_ai_space aiW aiH sw sh x y
        (.screenshot, [.dragTo p.1 p.2])
      | _, _ => (.raised "KeyError", [])
    | some (JVal.str "type") =>
      match List.lookup "text" a with
      | some (JVal.str t) =>
        let reclick : List Prim :=
          match lastClick with
          | some p => if cur ≠ p then [.click] else []
          | none => []
        (.screenshot, reclick ++ [.writeText t])
      | _ => (.raised "KeyError", [])
    | some (JVal.str "key") =>
      match List.lookup "text" a with
      | some (JVal.str t) => (.screenshot, [.press t])
      | _ => (.raised "KeyError", [])
    | some (JVal.str "screenshot") => (.screenshot, [])
    | some (JVal.str "cursor_position") =>
      let p := map_to_ai_space aiW aiH sw sh cur.1 cur.2
      (.cursorPos p.1 p.2, [])
    | some (JVal.str ty) =>
      (.raised ("Action failed: " ++ ty ++ " - Unsupported action: " ++ ty), [])
    | some v => (.raised ("Action failed: " ++ pyStr v), [])
    | none => (.raised "KeyError", [])

/-- One entry of `ComputerControl.screenshot_cache`: cache key, base64 image
data, and the stored timestamp (`time.time()` as a rational). -/
structure CacheEntry where
  key : String
  data : String
  ts : ℚ

/-- computer.py line 36: `self.cache_ttl = 5.0`. -/
def cache_ttl : ℚ := 5

/-- computer.py line 37: `self.max_cache_size = 10`. -/
def max_cache_size : Nat := 10

/-- Comparison used by the cleaner's `sorted(..., key=lambda x: x[1][1])`:
order cache entries by stored timestamp, ascending. -/
def tsLe (a b : CacheEntry) : Bool := decide (a.ts ≤ b.ts)

/-- computer.py lines 530-545, `ComputerControl._clean_screenshot_cache`:
drop entries older than `cache_ttl` (strictly: `now - ts > cache_ttl`), then,
if more than `max_cache_size` entries remain, sort by timestamp and keep only
the newest `max_cache_size` (`sorted_items[-self.max_cache_size:]`).  Lean's
`mergeSort` models Python's `sorted` (both are stable ascending sorts). -/
def clean_screenshot_cache (cache : List CacheEntry) (now : ℚ) : List CacheEntry :=
  let kept := cache.filter fun e => !(decide (now - e.ts > cache_ttl))
  if max_cache_size < kept.length then
    (kept.mergeSort tsLe).drop (kept.length - max_cache_size)
  else kept

/-- SDK object content blocks of a `BetaMessage` (anthropic.types.beta):
`BetaTextBlock` (with `.type = "text"`) and `BetaToolUseBlock` (with
`.type = "tool_use"`, an `.id`, a `.name` and an `.input` dict).  These are
objects, not dicts: `isinstance(block, dict)` is `False` for them. -/
inductive OBlock where
  | text (t : String)
  | toolUse (id : String) (name : String) (input : List (String × JVal))

/-- Items inside a dict `tool_result` block's `content` list, e.g.
`\x7b"type": "image", "source": \x7b"type": "base64", "media_type": ...,
"data": ...\x7d\x7d` or `\x7b"type": "text", "text": ...\x7d`. -/
inductive RItem where
  | text (t : String)
  | image (mediaType : String) (data : String)
  | other

/-- Dict-form content blocks as assembled by `Store.run_agent`:
a `tool_use` dict (with an `"id"` key), a `tool_result` dict (with a
`"tool_use_id"` key and a `content` list), a `text` dict, or any other
dict/value (`other`). -/
inductive DBlock where
  | toolUse (id : String)
  | toolResult (toolUseId : String) (content : List RItem)
  | text (t : String)
  | other

/-- A block occurring in a message's `content` list: either an SDK object
(`isinstance(block, dict)` fails) or a plain dict. -/
inductive CBlock where
  | obj (b : OBlock)
  | dict (b : DBlock)

/-- The `content` field of a dict-form message: a plain string or a list of
blocks. -/
inductive Content where
  | str (s : String)
  | blocks (xs : List CBlock)

/-- A converted message as produced by the first pass of
`_clean_message_history`: just a `role` and a `content` (any `id`/`metadata`
keys of the incoming dict are dropped by the conversion). -/
structure CMsg where
  role : String
  content : Content

/-- An entry of `Store.run_history` handed to `get_next_action`: either a
`BetaMessage` object (whose content is a list of SDK object blocks) or a
plain dict with `role` and `content` keys (`id`/`metadata` keys, which the
cleaning pass drops anyway, are elided from the model). -/
inductive Msg where
  | beta (role : String) (content : List OBlock)
  | dict (role : String) (content : Content)

/-- First pass of `_clean_message_history` (anthropic.py lines 174-201):
convert each history entry to a `\x7brole, content\x7d` dict.  A
`BetaMessage`'s content list is carried over as-is, so its blocks remain SDK
objects inside the converted dict. -/
def convertMsg : Msg → CMsg
  | .beta r c => ⟨r, .blocks (c.map .obj)⟩
  | .dict r c => ⟨r, c⟩

/-- Tool-use ids tracked by the first pass: from an assistant `BetaMessage`,
blocks with `.type == 'tool_use'` and an `.id`; from an assistant dict whose
content is a list, dict blocks with `"type": "tool_use"` and an `"id"`. -/
def collectToolUseIds (h : List Msg) : List String :=
  h.flatMap fun m =>
    match m with
    | .beta r c =>
      if r = "assistant" then
        c.filterMap fun b =>
          match b with
          | .toolUse i _ _ => some i
          | _ => none
      else []
    | .dict r (.blocks xs) =>
      if r = "assistant" then
        xs.filterMap fun b =>
          match b with
          | .dict (.toolUse i) => some i
          | _ => none
      else []
    | .dict _ (.str _) => []

/-- Second pass (anthropic.py lines 205-212): the `tool_use_id`s of all dict
`tool_result` blocks found in user messages whose content is a list.  Note
the `isinstance(block, dict)` guard: object blocks are not consulted. -/
def collectResultIds (ch : List CMsg) : List String :=
  ch.flatMap fun m =>
    match m.content with
    | .blocks xs =>
      if m.role = "user" then
        xs.filterMap fun b =>
          match b with
          | .dict (.toolResult tuid _) => some tuid
          | _ => none
      else []
    | .str _ => []

/-- Third pass (anthropic.py lines 221-238): a converted message is
"problematic" when it is an assistant message whose content list holds a
dict `tool_use` block (`isinstance(block, dict)` required) whose id is in
`missing_result_ids`.  SDK object blocks never satisfy the isinstance
check, so they can never mark a message as problematic. -/
def msgHasProblem (missing : List String) (m : CMsg) : Bool :=
  m.role = "assistant" &&
    (match m.content with
     | .blocks xs =>
       xs.any fun b =>
         match b with
         | .dict (.toolUse i) => missing.contains i
         | _ => false
     | .str _ => false)

/-- The fallback message appended when the cleaned history is empty
(anthropic.py lines 241-246). -/
def defaultSystemMsg : CMsg :=
  ⟨"system",
   .str "You are Claude, an AI assistant that can control computer devices. Help the user with their requests."⟩

/-- anthropic.py lines 165-248, `AnthropicClient._clean_message_history`:
convert the history to dicts, find tool_use ids lacking a matching
tool_result, remove whole messages flagged by `msgHasProblem`, and
substitute a single default system message when the result is empty. -/
def cleanMessageHistory (h : List Msg) : List CMsg :=
  let ch := h.map convertMsg
  let tids := collectToolUseIds h
  let rids := collectResultIds ch
  let missing := tids.filter fun i => !(rids.contains i)
  let ch2 := if missing.isEmpty then ch
             else ch.filter fun m => !(msgHasProblem missing m)
  if ch2.isEmpty then [defaultSystemMsg] else ch2

/-- Python `repr` of a string, as it appears inside `str(dict)` (escaping of
embedded quotes is not modelled; no theorem depends on it). -/
def pyReprStr (s : String) : String := "'" ++ s ++ "'"

/-- Python `repr` of a single content block, as it appears inside
`str(sorted_item)` in `_compute_hash`. -/
def pyReprBlock : CBlock → String
  | .obj (.text t) => "BetaTextBlock(text=" ++ pyReprStr t ++ ", type='text')"
  | .obj (.toolUse i n _) =>
    "BetaToolUseBlock(id=" ++ pyReprStr i ++ ", name=" ++ pyReprStr n ++ ", type='tool_use')"
  | .dict (.toolUse i) => "\x7b'type': 'tool_use', 'id': " ++ pyReprStr i ++ "\x7d"
  | .dict (.toolResult tuid xs) =>
    "\x7b'type': 'tool_result', 'tool_use_id': " ++ pyReprStr tuid ++
      ", 'content': [" ++ String.intercalate ", " (xs.map pyReprRItem) ++ "]\x7d"
  | .dict (.text t) => "\x7b'type': 'text', 'text': " ++ pyReprStr t ++ "\x7d"
  | .dict .other => "\x7b...\x7d"
where
  pyReprRItem : RItem → String
  | .text t => "\x7b'type': 'text', 'text': " ++ pyReprStr t ++ "\x7d"
  | .image mt d =>
    "\x7b'type': 'image', 'source': \x7b'type': 'base64', 'media_type': " ++
      pyReprStr mt ++ ", 'data': " ++ pyReprStr d ++ "\x7d\x7d"
  | .other => "\x7b...\x7d"

/-- Python `repr` of a message's content value. -/
def pyReprContent : Content → String
  | .str s => pyReprStr s
  | .blocks xs => "[" ++ String.intercalate ", " (xs.map pyReprBlock) ++ "]"

/-- anthropic.py lines 314-330, `_compute_hash`, applied to a cleaned
history list: each item is a dict whose keys are sorted (for a
`\x7brole, content\x7d` dict the sorted key order is `content`, then
`role`), rendered with `str(...)`, and the items are joined with `"||"`.
The cache key is the MD5 hex digest of this string; MD5 being a fixed pure
function of its input, two calls agree on the cache key exactly when they
agree on this serialization, which is what the theorems below compare. -/
def computeHashInput (data : List CMsg) : String :=
  String.intercalate "||"
    (data.map fun m =>
      "\x7b'content': " ++ pyReprContent m.content ++ ", 'role': " ++ pyReprStr m.role ++ "\x7d")

/-- anthropic.py lines 374-396 (`get_next_action`): the cache key for a
request is `_compute_hash(cleaned_history)` where
`cleaned_history = _clean_message_history(run_history)`.  The system prompt,
the model id and the max-token setting are separate locals of
`get_next_action` (`system_prompt`, `self.model`, `self.max_tokens`) and are
never passed to `_compute_hash`; they are parameters here only to record
that the computed key ignores them. -/
def requestCacheKeyInput (h : List Msg) (systemPrompt modelId : String)
    (maxTokens : Nat) : String :=
  computeHashInput (cleanMessageHistory h)

/-- config.py line 37: `API_CONFIG["truncate_history"]` defaults to `True`
(env `TRUNCATE_HISTORY` unset). -/
def truncate_history_default : Bool := true

/-- config.py line 38: `API_CONFIG["history_truncation_threshold"]` defaults
to `10` (env `HISTORY_TRUNCATION_THRESHOLD` unset). -/
def history_truncation_threshold_default : Nat := 10

/-- anthropic.py lines 411-423 (`get_next_action`): the message list passed
to `client.beta.messages.create(messages=...)` is `cleaned_history`,
unmodified — no code on this path consults `self.truncate_history` or
`self.history_truncation_threshold`, and `_create_truncated_message_summary`
has no caller. -/
def transmittedMessages (h : List Msg) : List CMsg :=
  cleanMessageHistory h

/-- anthropic.py lines 428-433: test whether a response's content contains a
`BetaToolUseBlock`. -/
def hasToolUse (c : List OBlock) : Bool :=
  c.any fun b =>
    match b with
    | .toolUse _ _ _ => true
    | .text _ => false

/-- anthropic.py line 436: the first `BetaTextBlock`'s text, or `""` when
there is none (`next((content.text for ...), "")`). -/
def firstTextContent (c : List OBlock) : String :=
  (c.filterMap fun b =>
    match b with
    | .text t => some t
    | _ => none).headD ""

/-- anthropic.py lines 437-446: the synthetic `finish_run` tool-use block
appended to a tool-less response. -/
def syntheticFinishBlock (c : List OBlock) : OBlock :=
  .toolUse "synthetic_finish" "finish_run"
    [("success", .bool false),
     ("error", .str ("Claude needs more information: " ++ firstTextContent c))]

/-- anthropic.py lines 428-447: the no-tool-call repair applied to every
fresh API response before it is cached and returned. -/
def ensureToolUse (c : List OBlock) : List OBlock :=
  if hasToolUse c then c else c ++ [syntheticFinishBlock c]

/-- Outcome of one `client.beta.messages.create` attempt: a response, an
`anthropic.APIError` with its optional `status_code`, or any other
exception. -/
inductive ApiOutcome where
  | ok (resp : List OBlock)
  | apiErr (msg : String) (status : Option Nat)
  | otherErr (msg : String)

/-- anthropic.py line 471: the retryable status codes
`(429, 500, 502, 503, 504)`; an error without a `status_code` attribute is
not retryable. -/
def isRetryable : Option Nat → Bool
  | some c => [429, 500, 502, 503, 504].contains c
  | none => false

/-- anthropic.py line 402: `max_retries = 3`. -/
def max_retries : Nat := 3

/-- What `get_next_action` ultimately does for its caller: return a (repaired)
response, or raise.  The only raising constructor reachable on the
API-failure path is `raisedGeneric`: the `AnthropicError` raised at line 494
is caught by the `except AnthropicError` handler at line 496 of the same
function and re-raised as a plain `Exception` (line 506), so no typed error
and no `status_code` attribute ever reaches the caller.
`raisedAnthropicErr` is included to express what the claim expects. -/
inductive Final where
  | returned (resp : List OBlock)
  | raisedGeneric (msg : String)
  | raisedAnthropicErr (msg : String) (status : Option Nat)

/-- Aggregate observable behaviour of the retry section: how many attempts
were made, the successive `time.sleep` durations, and the final outcome. -/
structure RetryResult where
  attempts : Nat
  sleeps : List ℚ
  final : Final

/-- Python `str(error_msg)` where `error_msg` starts as `None`. -/
def pyStrOptStr : Option String → String
  | some s => s
  | none => "None"

/-- anthropic.py lines 487-506: after the loop, absent mock-API fallbacks,
`AnthropicError(f"API error: \x7bstr(error_msg)\x7d", None, status_code)` is
raised; `str` of that exception is
`"API Error: Anthropic API Error: API error: " ++ error_msg` (exceptions.py
lines 8-42 prepend `"Anthropic API Error: "` and `"API Error: "`); the
`except AnthropicError` handler then raises
`Exception(f"Anthropic API Error: \x7bstr(e)\x7d")`.  The status code is a
constructor argument of the swallowed `AnthropicError` only; the exception
the caller sees is a plain `Exception` carrying just this message. -/
def raiseAfterLoop (errMsg : Option String) (status : Option Nat) : Final :=
  .raisedGeneric
    ("Anthropic API Error: API Error: Anthropic API Error: API error: " ++
      pyStrOptStr errMsg)

/-- anthropic.py lines 411-485, the `for attempt in range(max_retries)` loop.
Each pending attempt is paired with that iteration's `random.random()` draw
`j`; on a retryable `APIError` the delay is updated to
`retry_delay * (2 + j)` and slept (even after the final attempt), then the
loop continues; a non-retryable `APIError` or any other exception breaks
out.  A successful response is repaired by `ensureToolUse` and returned
(the caching that follows does not change the returned value). -/
def retryLoop : List (ApiOutcome × ℚ) → ℚ → Option String → Option Nat →
    Nat → List ℚ → RetryResult
  | [], _, errMsg, status, attempts, sleeps =>
    ⟨attempts, sleeps, raiseAfterLoop errMsg status⟩
  | (o, j) :: rest, delay, _, status, attempts, sleeps =>
    match o with
    | .ok resp => ⟨attempts + 1, sleeps, .returned (ensureToolUse resp)⟩
    | .apiErr m st =>
      let errMsg := some ("API Error: Anthropic API Error: API error: " ++ m)
      if isRetryable st then
        let d := delay * (2 + j)
        retryLoop rest d errMsg st (attempts + 1) (sleeps ++ [d])
      else ⟨attempts + 1, sleeps, raiseAfterLoop errMsg st⟩
    | .otherErr m =>
      ⟨attempts + 1, sleeps, raiseAfterLoop (some ("Unexpected error: " ++ m)) status⟩

/-- The retry section of `get_next_action` run from its initial state:
`retry_delay = 1.0`, `error_msg = None`, `status_code = None`, at most
`max_retries` attempts. -/
def getNextActionAttempts (outcomes : List (ApiOutcome × ℚ)) : RetryResult :=
  retryLoop (outcomes.take max_retries) 1 none none 0 []

/-- The argument of `Store.extract_action`: a `BetaMessage` (only its content
list matters) or any other value, which fails the
`isinstance(message, BetaMessage)` check. -/
inductive PyMsg where
  | betaMsg (content : List OBlock)
  | notBeta

/-- The error dict returned on every failure path of `extract_action`. -/
def errAction (m : String) : ActionDict :=
  [("type", .str "error"), ("message", .str m)]

/-- store.py lines 450-455: the loop over `message.content` acts on the
first `BetaToolUseBlock` (every branch under the isinstance test returns). -/
def findFirstToolUse (c : List OBlock) : Option (String × String × List (String × JVal)) :=
  c.findSome? fun b =>
    match b with
    | .toolUse i n inp => some (i, n, inp)
    | .text _ => none

/-- Python `input_data.get(k)` followed by an `is None` test: both a missing
key and a stored `None` give `None`. -/
def getNonNone (input : List (String × JVal)) (k : String) : Option JVal :=
  match List.lookup k input with
  | some .pynone => none
  | some v => some v
  | none => none

/-- store.py lines 471-482: `action_type = input_data.get('action_type')`,
falling back to `input_data.get('action')` when that is `None`. -/
def actionTypeOf (input : List (String × JVal)) : Option JVal :=
  match getNonNone input "action_type" with
  | some v => some v
  | none => getNonNone input "action"

/-- store.py lines 487-505: the optional screenshot/region parameters copied
into the action dict, in source order (`grayscale`, `bw_mode`,
`skip_before_screenshot`, `skip_after_screenshot`, `region` — only when it
is a 4-element list — and `element_type`). -/
def baseOpts (input : List (String × JVal)) : ActionDict :=
  (match List.lookup "grayscale" input with
   | some v => [("grayscale", JVal.bool (pyTruthy v))]
   | none => []) ++
  (match List.lookup "bw_mode" input with
   | some v => [("bw_mode", JVal.bool (pyTruthy v))]
   | none => []) ++
  (match List.lookup "skip_before_screenshot" input with
   | some v => [("skip_before_screenshot", JVal.bool (pyTruthy v))]
   | none => []) ++
  (match List.lookup "skip_after_screenshot" input with
   | some v => [("skip_after_screenshot", JVal.bool (pyTruthy v))]
   | none => []) ++
  (match List.lookup "region" input with
   | some (JVal.list xs) => if xs.length = 4 then [("region", JVal.list xs)] else []
   | some _ => []
   | none => []) ++
  (match List.lookup "element_type" input with
   | some v => [("element_type", v)]
   | none => [])

/-- store.py lines 510-512 and 525-527: `input_data['coordinate']` when it is
a 2-element list. -/
def coordinatePair (input : List (String × JVal)) : Option (JVal × JVal) :=
  match List.lookup "coordinate" input with
  | some (JVal.list [cx, cy]) => some (cx, cy)
  | some _ => none
  | none => none

/-- store.py lines 508-519: parameter handling for `mouse_move` /
`left_click_drag` — `coordinate` first, then direct `x`/`y`, else the
invalid-coordinate error. -/
def mouseMoveParams (base : ActionDict) (input : List (String × JVal)) : ActionDict :=
  match coordinatePair input with
  | some (cx, cy) => base ++ [("x", cx), ("y", cy)]
  | none =>
    match List.lookup "x" input, List.lookup "y" input with
    | some vx, some vy => base ++ [("x", vx), ("y", vy)]
    | _, _ => errAction "Invalid coordinate for mouse action"

/-- store.py lines 520-528: parameter handling for the click actions —
direct `x`/`y` first, then `coordinate`, else the bare action. -/
def clickParams (base : ActionDict) (input : List (String × JVal)) : ActionDict :=
  match List.lookup "x" input, List.lookup "y" input with
  | some vx, some vy => base ++ [("x", vx), ("y", vy)]
  | _, _ =>
    match coordinatePair input with
    | some (cx, cy) => base ++ [("x", cx), ("y", cy)]
    | none => base

/-- store.py lines 531-536: parameter handling for the keyboard actions. -/
def keyboardParams (base : ActionDict) (input : List (String × JVal)) : ActionDict :=
  match List.lookup "text" input with
  | some t => base ++ [("text", t)]
  | none => errAction "Missing text for keyboard action"

/-- store.py lines 480-539: dispatch on the decoded `action_type` value.  A
non-string `action_type` matches none of the string lists and falls through
to the unsupported-action error, whose message renders the value with
`str`. -/
def computerActionCore : Option JVal → List (String × JVal) → ActionDict
  | none, _ => errAction "Action type not found in input data"
  | some (JVal.str s), input =>
    let base : ActionDict := ("type", JVal.str s) :: baseOpts input
    if s = "mouse_move" ∨ s = "left_click_drag" then
      mouseMoveParams base input
    else if ["left_click", "right_click", "middle_click",
             "double_click", "mouse_click"].contains s then
      clickParams base input
    else if s = "screenshot" ∨ s = "cursor_position" then
      base
    else if ["type", "key", "keyboard_type"].contains s then
      keyboardParams base input
    else errAction ("Unsupported action: " ++ s)
  | some v, _ => errAction ("Unsupported action: " ++ pyStr v)

/-- store.py lines 469-539: decoding of a `computer` tool call. -/
def computerAction (input : List (String × JVal)) : ActionDict :=
  computerActionCore (actionTypeOf input) input

/-- store.py lines 434-545, `Store.extract_action`.  The whole body is inside
`try: ... except Exception: return \x7b'type': 'error', ...\x7d`, and every
partial operation in the body is guarded (`.get` with defaults, explicit
`in` / `isinstance` / `len` checks), so the function is total — which this
embedding witnesses by being a total Lean function.  The
`self.last_tool_use_id` side effect does not affect the returned dict and is
not modelled.  The `finish_run` branch (lines 456-463) reads
`input.get('success', True)` and `input.get('error', '')`; a tool other than
`computer` or the absence of any tool-use block yield error dicts. -/
def extract_action : PyMsg → ActionDict
  | .notBeta => errAction "Unexpected message type"
  | .betaMsg content =>
    match findFirstToolUse content with
    | none => errAction "No tool use found in message"
    | some (_, name, input) =>
      if name = "finish_run" then
        [("type", .str "finish"),
         ("success", (List.lookup "success" input).getD (.bool true)),
         ("error", (List.lookup "error" input).getD (.str ""))]
      else if name = "computer" then computerAction input
      else errAction ("Unexpected tool: " ++ name)

/-- Names bound by assignment (or as parameters) somewhere in the body of
`Store.run_agent` (store.py lines 193-385) — Python's static scoping makes
exactly these the function's local variables: `self`, `update_callback`,
`initial_message_id`, `max_retries`, `retry_count`, `message`,
`message_index`, `action`, `is_successful`, `error_msg`, `action_type`,
`optimization`, `screenshot`, `description`, `message_id`, `metadata`,
`screenshot_message`, `error_msg_id`, `wait_time`.  `region`,
`use_grayscale` and `use_bw_mode` are read at lines 322, 326 and 327 but
assigned nowhere, so they compile as global loads. -/
def runAgentLocalNames : List String :=
  ["self", "update_callback", "initial_message_id", "max_retries",
   "retry_count", "message", "message_index", "action", "is_successful",
   "error_msg", "action_type", "optimization", "screenshot", "description",
   "message_id", "metadata", "screenshot_message", "error_msg_id",
   "wait_time"]

/-- Module-level names of store.py (its imports and definitions): the
namespace against which an unassigned name in `run_agent` is resolved. -/
def storeModuleGlobals : List String :=
  ["logging", "List", "Dict", "Any", "Optional", "Union", "Callable",
   "json", "time", "os", "pickle", "Path", "datetime", "AnthropicClient",
   "ComputerControl", "AnthropicError", "ComputerAgentError", "StorageError",
   "BetaMessage", "BetaToolUseBlock", "BetaTextBlock", "DATA_DIR", "logger",
   "Store"]

/-- Resolution of the name `region` at store.py line 322 (`if region:`):
it succeeds only if `region` is a local of `run_agent` or a module global.
It is neither, so the load raises `NameError`. -/
def regionNameResolves : Bool :=
  runAgentLocalNames.contains "region" || storeModuleGlobals.contains "region"

/-- store.py lines 330-345: the screenshot message that the code intends to
append — a user-role dict whose content is one `tool_result` block keyed by
`self.last_tool_use_id` holding a base64 `image/webp` image block (the empty
`description` contributes no text item). -/
def buildScreenshotMsg (tuid : String) (screenshot : String) : Msg :=
  .dict "user"
    (.blocks [.dict (.toolResult tuid [.image "image/webp" screenshot])])

/-- store.py lines 303-349, the `try` block handling a returned screenshot:
when `screenshot` is truthy the metadata dict is assembled (lines 311-319),
then line 322 evaluates `if region:` — modelled by the explicit name
resolution `regionNameResolves`; an unresolvable name raises `NameError`
with message `name 'region' is not defined`.  Only if that name resolved
would execution reach the message construction of lines 330-345. -/
def screenshotTryBlock (tuid : String) (screenshot : String) :
    Except String (Option Msg) :=
  if screenshot.isEmpty then .ok none
  else
    if regionNameResolves then .ok (some (buildScreenshotMsg tuid screenshot))
    else .error "name 'region' is not defined"

/-- store.py lines 303-361: the messages actually appended to
`self.run_history` by the screenshot-handling block — on an exception the
handler at lines 351-361 appends a plain text message
`Action failed: <str(exception)>` instead. -/
def screenshotBranchAppended (tuid : String) (screenshot : String) : List Msg :=
  match screenshotTryBlock tuid screenshot with
  | .ok none => []
  | .ok (some m) => [m]
  | .error e =>
    [.dict "user" (.blocks [.dict (.text ("Action failed: " ++ e))])]

/-- Whether a history entry contains a `tool_result` block holding an image
item. -/
def msgHasToolResultImage (m : Msg) : Bool :=
  match m with
  | .dict _ (.blocks xs) =>
    xs.any fun b =>
      match b with
      | .dict (.toolResult _ items) =>
        items.any fun it =>
          match it with
          | .image _ _ => true
          | _ => false
      | _ => false
  | _ => false

/-- Tool-use ids present anywhere in a cleaned history (object-form and
dict-form blocks alike) — used to state that an output slice still contains
a dangling id. -/
def outputToolUseIds (ch : List CMsg) : List String :=
  ch.flatMap fun m =>
    match m.content with
    | .blocks xs =>
      xs.filterMap fun b =>
        match b with
        | .obj (.toolUse i _ _) => some i
        | .dict (.toolUse i) => some i
        | _ => none
    | .str _ => []

/-- Example action: a `key` action whose text is a destructive command. -/
def keyActionCex : ActionDict :=
  [("type", .str "key"), ("text", .str "sudo rm -rf /")]

/-- Example action: a `left_click` that carries far out-of-bounds
coordinates. -/
def oobClickCex : ActionDict :=
  [("type", .str "left_click"), ("x", .num 2000), ("y", .num 100)]

/-- Example action: a text-entry (`type`) action typing a destructive
command. -/
def typeTextCex : ActionDict :=
  [("type", .str "type"), ("text", .str "sudo rm -rf /")]

/-- Example action: a `mouse_move` to `(2000, 100)`, out of bounds for a
1024x640 model space. -/
def mouseMoveOobCex : ActionDict :=
  [("type", .str "mouse_move"), ("x", .num 2000), ("y", .num 100)]

/-- The rejection conditions asserted by the (amended) safety-gate claim,
stated from the spec's words: missing `type`; a text-entry (`type`) action
whose text contains a denylisted substring; a `mouse_move`/`left_click_drag`
whose coordinates fall outside `[0, modelWidth*1.1] x [0, modelHeight*1.1]`.
This spec-side predicate is compared against the code's
`validateActionSafety`. -/
def specRejects (aiW aiH : ℚ) (a : ActionDict) : Prop :=
  List.lookup "type" a = none
  ∨ (List.lookup "type" a = some (.str "type")
      ∧ ∃ text, List.lookup "text" a = some (.str text)
        ∧ ∃ p ∈ dangerous_patterns, containsSub p (pyLower text) = true)
  ∨ ((List.lookup "type" a = some (.str "mouse_move")
        ∨ List.lookup "type" a = some (.str "left_click_drag"))
      ∧ ∃ x y : ℚ,
          List.lookup "x" a = some (.num x)
          ∧ List.lookup "y" a = some (.num y)
          ∧ (x < 0 ∨ aiW * (11 / 10) < x ∨ y < 0 ∨ aiH * (11 / 10) < y))

/-- An in-memory history of 16 messages — above the default truncation
threshold of 10. -/
def exHistory16 : List Msg :=
  [.dict "user" (.str "turn 1"), .dict "assistant" (.str "turn 2"),
   .dict "user" (.str "turn 3"), .dict "assistant" (.str "turn 4"),
   .dict "user" (.str "turn 5"), .dict "assistant" (.str "turn 6"),
   .dict "user" (.str "turn 7"), .dict "assistant" (.str "turn 8"),
   .dict "user" (.str "turn 9"), .dict "assistant" (.str "turn 10"),
   .dict "user" (.str "turn 11"), .dict "assistant" (.str "turn 12"),
   .dict "user" (.str "turn 13"), .dict "assistant" (.str "turn 14"),
   .dict "user" (.str "turn 15"), .dict "assistant" (.str "turn 16")]

/-- A minimal history slice used by the cache-key theorems. -/
def exHistorySlice : List Msg :=
  [.dict "user" (.str "open the browser")]

/-- A history whose only entry is an assistant `BetaMessage` containing a
`ToolUse` block with id `t1` and no matching `tool_result` anywhere. -/
def danglingToolUseHistory : List Msg :=
  [.beta "assistant" [.toolUse "t1" "computer" []]]

/-- The same dangling situation, but with the assistant message in dict form
(blocks are plain dicts, so the `isinstance(block, dict)` checks succeed). -/
def danglingDictHistory : List Msg :=
  [.dict "assistant" (.blocks [.dict (.toolUse "t1")])]

/-- A concrete screenshot cache with 13 entries (two of them expired at
`exNow`, eleven fresh — enough to force the size-bound eviction), for
instantiating the cache-cleaning theorem. -/
def exCache : List CacheEntry :=
  [⟨"k1", "d1", 90⟩, ⟨"k2", "d2", 91⟩, ⟨"k3", "d3", 96⟩, ⟨"k4", "d4", 97⟩,
   ⟨"k5", "d5", 98⟩, ⟨"k6", "d6", 99⟩, ⟨"k7", "d7", 100⟩, ⟨"k8", "d8", 101⟩,
   ⟨"k9", "d9", 102⟩, ⟨"k10", "d10", 103⟩, ⟨"k11", "d11", 104⟩,
   ⟨"k12", "d12", 105⟩, ⟨"k13", "d13", 95⟩]

/-- The observation time paired with `exCache`. -/
def exNow : ℚ := 100

/-- Helper: a rejected action short-circuits `perform_action` to the
error-indicator image with no OS primitive invoked. -/
theorem perform_rejected (aiW aiH sw sh : ℚ) (lastClick : Option (ℚ × ℚ))
    (cur : ℚ × ℚ) (a : ActionDict)
    (h : validateActionSafety aiW aiH a = false) :
    perform_action aiW aiH sw sh lastClick cur a = (.errorImage, []) := by
  simp [perform_action, h]

/-- C8 (confirmed).  `map_from_ai_space` is the pure scaling
`(x * screenWidth/modelWidth, y * screenHeight/modelHeight)` and
`map_to_ai_space` is its exact inverse (no rotation, no offset): for all
nonzero dimensions the round trip is the identity — exactly, in the rational
model — and in particular for model space 1024x640 and screen 1920x1080 the
round trip of `(512, 320)` is `(512, 320)`. -/
theorem coordinate_round_trip :
    (∀ aiW aiH sw sh x y : ℚ, aiW ≠ 0 → aiH ≠ 0 → sw ≠ 0 → sh ≠ 0 →
      map_to_ai_space aiW aiH sw sh
        (map_from_ai_space aiW aiH sw sh x y).1
        (map_from_ai_space aiW aiH sw sh x y).2 = (x, y))
  ∧ map_to_ai_space 1024 640 1920 1080
      (map_from_ai_space 1024 640 1920 1080 512 320).1
      (map_from_ai_space 1024 640 1920 1080 512 320).2 = (512, 320) := by
  have main : ∀ aiW aiH sw sh x y : ℚ, aiW ≠ 0 → aiH ≠ 0 → sw ≠ 0 → sh ≠ 0 →
      map_to_ai_space aiW aiH sw sh
        (map_from_ai_space aiW aiH sw sh x y).1
        (map_from_ai_space aiW aiH sw sh x y).2 = (x, y) := by
    intro aiW aiH sw sh x y hW hH hw hh
    simp only [map_from_ai_space, map_to_ai_space, Prod.mk.injEq]
    constructor <;> field_simp <;> ring
  exact ⟨main,
    main 1024 640 1920 1080 512 320 (by norm_num) (by norm_num)
      (by norm_num) (by norm_num)⟩

/-- Witness for C8: the round-trip theorem applied at the concrete
dimensions of the claim, with every nonzero-dimension hypothesis
discharged. -/
theorem coordinate_round_trip_witness :
    map_to_ai_space 1024 640 1920 1080
      (map_from_ai_space 1024 640 1920 1080 512 320).1
      (map_from_ai_space 1024 640 1920 1080 512 320).2 = (512, 320) :=
  coordinate_round_trip.1 1024 640 1920 1080 512 320
    (by norm_num) (by norm_num) (by norm_num) (by norm_num)

/-- Counterexample for C1.  The claim asserts that `validateSafety` rejects
every keyboard `key` action whose text contains a denylisted substring and
every coordinate-bearing action with out-of-bounds coordinates.  The code
checks the denylist only for `type` (text-entry) actions and the bounds only
for `mouse_move`/`left_click_drag`: a `key` action carrying
`sudo rm -rf /` and a `left_click` carrying `(2000, 100)` both pass
validation. -/
theorem safety_gate_cex :
    validateActionSafety 1024 640 keyActionCex = true
  ∧ validateActionSafety 1024 640 oobClickCex = true := by
  exact ⟨rfl, rfl⟩

/-- C1 (corrected).  Whenever the action lacks a `type`, or is a text-entry
(`type`) action whose text contains a denylisted destructive substring, or
is a `mouse_move`/`left_click_drag` whose coordinates fall outside
`[0, modelWidth*1.1] x [0, modelHeight*1.1]`, `validateActionSafety` rejects
it and `perform_action` returns the error-indicator image without invoking
any OS input primitive; concretely, the text-entry action typing
`sudo rm -rf /` and the `mouse_move` to `(2000, 100)` against a 1024x640
model space are both rejected. -/
theorem safety_gate_amended :
    (∀ (aiW aiH sw sh : ℚ) (lastClick : Option (ℚ × ℚ)) (cur : ℚ × ℚ)
        (a : ActionDict), specRejects aiW aiH a →
        validateActionSafety aiW aiH a = false
        ∧ perform_action aiW aiH sw sh lastClick cur a = (.errorImage, []))
  ∧ validateActionSafety 1024 640 typeTextCex = false
  ∧ perform_action 1024 640 1920 1080 none (0, 0) typeTextCex = (.errorImage, [])
  ∧ validateActionSafety 1024 640 mouseMoveOobCex = false
  ∧ perform_action 1024 640 1920 1080 none (0, 0) mouseMoveOobCex
      = (.errorImage, []) := by
  have main : ∀ (aiW aiH sw sh : ℚ) (lastClick : Option (ℚ × ℚ))
      (cur : ℚ × ℚ) (a : ActionDict), specRejects aiW aiH a →
      validateActionSafety aiW aiH a = false
      ∧ perform_action aiW aiH sw sh lastClick cur a = (.errorImage, []) := by
    intro aiW aiH sw sh lastClick cur a hrej
    have hval : validateActionSafety aiW aiH a = false := by
      rcases hrej with h | ⟨hty, text, htext, p, hp, hc⟩ | ⟨hty, x, y, hx, hy, hb⟩
      · simp [validateActionSafety, h]
      · have hany : dangerous_patterns.any (fun q => containsSub q (pyLower text)) = true :=
          List.any_eq_true.mpr ⟨p, hp, hc⟩
        simp [validateActionSafety, hty, htext, hany]
      · rcases hty with hty | hty <;>
          · simp [validateActionSafety, hty, hx, hy]
            intro h0x hux h0y
            rcases hb with h | h | h | h <;> try linarith
    exact ⟨hval, perform_rejected aiW aiH sw sh lastClick cur a hval⟩
  have h1 : specRejects 1024 640 typeTextCex :=
    Or.inr (Or.inl ⟨rfl, "sudo rm -rf /", rfl, "sudo ", by simp [dangerous_patterns], by decide⟩)
  have h2 : specRejects 1024 640 mouseMoveOobCex :=
    Or.inr (Or.inr ⟨Or.inl rfl, 2000, 100, rfl, rfl, Or.inr (Or.inl (by norm_num))⟩)
  exact ⟨main,
    (main 1024 640 1920 1080 none (0, 0) typeTextCex h1).1,
    (main 1024 640 1920 1080 none (0, 0) typeTextCex h1).2,
    (main 1024 640 1920 1080 none (0, 0) mouseMoveOobCex h2).1,
    (main 1024 640 1920 1080 none (0, 0) mouseMoveOobCex h2).2⟩

/-- Witness for C1: the amended safety-gate theorem applied to the concrete
text-entry action typing `sudo rm -rf /`, with the rejection condition
discharged explicitly. -/
theorem safety_gate_amended_witness :
    validateActionSafety 1024 640 typeTextCex = false
  ∧ perform_action 1024 640 1920 1080 none (0, 0) typeTextCex
      = (.errorImage, []) :=
  safety_gate_amended.1 1024 640 1920 1080 none (0, 0) typeTextCex
    (Or.inr (Or.inl ⟨rfl, "sudo rm -rf /", rfl, "sudo ",
      by simp [dangerous_patterns], by decide⟩))

/-- C2 (code bug).  With the default settings (`truncate_history = True`,
`history_truncation_threshold = 10`), the slice that `get_next_action`
transmits for a 16-message history is the full cleaned history of 16
messages — not the claimed 10-message `[first] + [summary notice] + [last 8]`
slice.  No code on the transmit path consults the truncation settings and
`_create_truncated_message_summary` is never called, although the function's
own docstring (anthropic.py lines 365-367) promises that only a subset of
the history is sent when truncation is enabled. -/
theorem history_truncation_never_applied :
    truncate_history_default = true
  ∧ history_truncation_threshold_default = 10
  ∧ exHistory16.length = 16
  ∧ transmittedMessages exHistory16 = exHistory16.map convertMsg
  ∧ (transmittedMessages exHistory16).length = 16 :=
  ⟨rfl, rfl, rfl, rfl, rfl⟩

/-- Counterexample for C5.  The claim asserts that two requests identical
except for the system prompt, the model id, or the max-token setting never
map to the same cache key.  The key is `_compute_hash(cleaned_history)`,
whose input (hence the MD5 digest) is byte-identical for two requests that
differ only in those settings. -/
theorem cache_key_ignores_settings_cex :
    requestCacheKeyInput exHistorySlice
        "You are Claude, controlling a computer." "claude-3-5-sonnet-20241022" 1024
      = requestCacheKeyInput exHistorySlice
        "A completely different system prompt." "claude-3-7-sonnet" 4096
  ∧ ¬(("You are Claude, controlling a computer.", "claude-3-5-sonnet-20241022",
        (1024 : Nat))
      = ("A completely different system prompt.", "claude-3-7-sonnet", 4096)) :=
  ⟨rfl, by decide⟩

/-- C5 (corrected).  The cache key is a deterministic hash computed over the
cleaned transmit slice only (the role+content dicts, keys sorted before
serialization): any two requests whose cleaned slices coincide map to the
same cache key, regardless of their system prompt, model id, or max-token
setting. -/
theorem cache_key_depends_only_on_slice
    (h1 h2 : List Msg) (p1 m1 p2 m2 : String) (t1 t2 : Nat)
    (h : cleanMessageHistory h1 = cleanMessageHistory h2) :
    requestCacheKeyInput h1 p1 m1 t1 = requestCacheKeyInput h2 p2 m2 t2 := by
  unfold requestCacheKeyInput
  rw [h]

/-- Witness for C5: the amended cache-key theorem applied at a concrete
slice, the identical-cleaned-slice hypothesis discharged by `rfl`. -/
theorem cache_key_depends_only_on_slice_witness :
    requestCacheKeyInput exHistorySlice "prompt one" "model-a" 1
      = requestCacheKeyInput exHistorySlice "prompt two" "model-b" 2 :=
  cache_key_depends_only_on_slice exHistorySlice exHistorySlice
    "prompt one" "model-a" "prompt two" "model-b" 1 2 rfl

/-- C6 (code bug).  An assistant `BetaMessage` whose `ToolUse` id `t1` has no
matching `tool_result` anywhere survives `_clean_message_history` intact:
its id is tracked by the first pass (attribute access), but the removal scan
requires `isinstance(block, dict)`, which SDK object blocks fail — so the
cleaned output still contains the dangling `ToolUse` id `t1` and no matching
result id.  By contrast, the same dangling message in dict form is removed
(and, the history becoming empty, the default system message is
substituted), confirming that the removal logic was meant to apply. -/
theorem pairing_repair_keeps_dangling_beta_message :
    cleanMessageHistory danglingToolUseHistory
      = [⟨"assistant", .blocks [.obj (.toolUse "t1" "computer" [])]⟩]
  ∧ outputToolUseIds (cleanMessageHistory danglingToolUseHistory) = ["t1"]
  ∧ collectResultIds (cleanMessageHistory danglingToolUseHistory) = []
  ∧ cleanMessageHistory danglingDictHistory = [defaultSystemMsg] :=
  ⟨rfl, rfl, rfl, rfl⟩

/-- C7 (confirmed).  A response containing no tool-use block is repaired by
appending the synthetic `finish_run` tool-use block (id `synthetic_finish`,
input `success = False` and an error message embedding the response's text),
so the content `get_next_action` returns always holds at least one tool-use
block. -/
theorem no_tool_call_repair :
    (∀ c, hasToolUse (ensureToolUse c) = true)
  ∧ (∀ c, hasToolUse c = false →
      ensureToolUse c = c ++ [syntheticFinishBlock c]) := by
  constructor
  · intro c
    by_cases h : hasToolUse c
    · simpa [ensureToolUse, h] using h
    · have h' : hasToolUse c = false := by simpa using h
      have hsplit : hasToolUse (c ++ [syntheticFinishBlock c])
          = (hasToolUse c || hasToolUse [syntheticFinishBlock c]) := by
        simp [hasToolUse, List.any_append]
      have hsyn : hasToolUse [syntheticFinishBlock c] = true := rfl
      simp [ensureToolUse, h', hsplit, hsyn]
  · intro c h
    simp [ensureToolUse, h]

/-- Witness for C7: the repair theorem applied to a concrete text-only
response content. -/
theorem no_tool_call_repair_witness :
    hasToolUse [OBlock.text "I am not sure what to do."] = false
  ∧ ensureToolUse [OBlock.text "I am not sure what to do."]
      = [OBlock.text "I am not sure what to do."]
        ++ [syntheticFinishBlock [OBlock.text "I am not sure what to do."]]
  ∧ hasToolUse (ensureToolUse [OBlock.text "I am not sure what to do."]) = true :=
  ⟨rfl,
   no_tool_call_repair.2 [OBlock.text "I am not sure what to do."] rfl,
   no_tool_call_repair.1 [OBlock.text "I am not sure what to do."]⟩

/-- Helper: every failure dict of `extract_action` carries a `type` key. -/
theorem lookup_type_errAction (e : String) :
    List.lookup "type" (errAction e) = some (.str "error") := by
  simp [errAction, List.lookup]

/-- Helper: `mouseMoveParams` keeps the `type` head of the action dict or
returns the invalid-coordinate error dict. -/
theorem mouseMoveParams_shape (v : JVal) (rest : ActionDict)
    (input : List (String × JVal)) :
    (∃ e, mouseMoveParams (("type", v) :: rest) input = errAction e)
  ∨ ∃ tail, mouseMoveParams (("type", v) :: rest) input = ("type", v) :: tail := by
  unfold mouseMoveParams
  cases hc : coordinatePair input with
  | some p =>
    obtain ⟨cx, cy⟩ := p
    exact Or.inr ⟨rest ++ [("x", cx), ("y", cy)], rfl⟩
  | none =>
    cases hx : List.lookup "x" input with
    | none =>
      cases hy : List.lookup "y" input with
      | none => exact Or.inl ⟨_, rfl⟩
      | some vy => exact Or.inl ⟨_, rfl⟩
    | some vx =>
      cases hy : List.lookup "y" input with
      | none => exact Or.inl ⟨_, rfl⟩
      | some vy => exact Or.inr ⟨rest ++ [("x", vx), ("y", vy)], rfl⟩

/-- Helper: `clickParams` always keeps the `type` head of the action dict. -/
theorem clickParams_shape (v : JVal) (rest : ActionDict)
    (input : List (String × JVal)) :
    ∃ tail, clickParams (("type", v) :: rest) input = ("type", v) :: tail := by
  unfold clickParams
  cases hx : List.lookup "x" input with
  | none =>
    cases hy : List.lookup "y" input with
    | none =>
      cases hc : coordinatePair input with
      | some p => obtain ⟨cx, cy⟩ := p; exact ⟨rest ++ [("x", cx), ("y", cy)], rfl⟩
      | none => exact ⟨rest, rfl⟩
    | some vy =>
      cases hc : coordinatePair input with
      | some p => obtain ⟨cx, cy⟩ := p; exact ⟨rest ++ [("x", cx), ("y", cy)], rfl⟩
      | none => exact ⟨rest, rfl⟩
  | some vx =>
    cases hy : List.lookup "y" input with
    | none =>
      cases hc : coordinatePair input with
      | some p => obtain ⟨cx, cy⟩ := p; exact ⟨rest ++ [("x", cx), ("y", cy)], rfl⟩
      | none => exact ⟨rest, rfl⟩
    | some vy => exact ⟨rest ++ [("x", vx), ("y", vy)], rfl⟩

/-- Helper: `keyboardParams` keeps the `type` head or returns the
missing-text error dict. -/
theorem keyboardParams_shape (v : JVal) (rest : ActionDict)
    (input : List (String × JVal)) :
    (∃ e, keyboardParams (("type", v) :: rest) input = errAction e)
  ∨ ∃ tail, keyboardParams (("type", v) :: rest) input = ("type", v) :: tail := by
  unfold keyboardParams
  cases ht : List.lookup "text" input with
  | none => exact Or.inl ⟨_, rfl⟩
  | some t => exact Or.inr ⟨rest ++ [("text", t)], rfl⟩

/-- Helper: a decoded `computer` action is either an error dict or an action
dict headed by its `type` entry. -/
theorem computerAction_shape (input : List (String × JVal)) :
    (∃ e, computerAction input = errAction e)
  ∨ ∃ v tail, computerAction input = ("type", v) :: tail := by
  unfold computerAction
  cases hA : actionTypeOf input with
  | none => exact Or.inl ⟨_, rfl⟩
  | some v =>
    cases v with
    | str s =>
      simp only [computerActionCore]
      by_cases h1 : s = "mouse_move" ∨ s = "left_click_drag"
      · rw [if_pos h1]
        rcases mouseMoveParams_shape (.str s) (baseOpts input) input with
          ⟨e, he⟩ | ⟨tail, ht⟩
        · exact Or.inl ⟨e, he⟩
        · exact Or.inr ⟨.str s, tail, ht⟩
      · rw [if_neg h1]
        by_cases h2 : (["left_click", "right_click", "middle_click",
            "double_click", "mouse_click"].contains s) = true
        · rw [if_pos h2]
          obtain ⟨tail, ht⟩ := clickParams_shape (.str s) (baseOpts input) input
          exact Or.inr ⟨.str s, tail, ht⟩
        · rw [if_neg h2]
          by_cases h3 : s = "screenshot" ∨ s = "cursor_position"
          · rw [if_pos h3]
            exact Or.inr ⟨.str s, baseOpts input, rfl⟩
          · rw [if_neg h3]
            by_cases h4 : (["type", "key", "keyboard_type"].contains s) = true
            · rw [if_pos h4]
              rcases keyboardParams_shape (.str s) (baseOpts input) input with
                ⟨e, he⟩ | ⟨tail, ht⟩
              · exact Or.inl ⟨e, he⟩
              · exact Or.inr ⟨.str s, tail, ht⟩
            · rw [if_neg h4]
              exact Or.inl ⟨_, rfl⟩
    | num q => exact Or.inl ⟨_, rfl⟩
    | bool b => exact Or.inl ⟨_, rfl⟩
    | pynone => exact Or.inl ⟨_, rfl⟩
    | list xs => exact Or.inl ⟨_, rfl⟩

/-- C9 (confirmed).  `Store.extract_action` is total: its Lean embedding is a
total function (every partial Python operation in the body is guarded, and
the whole body sits under `except Exception`, which returns an error dict),
and for every input the returned dict contains a `type` key.  Each failure
mode — a non-`BetaMessage` input, no tool-use block, an unexpected tool
name, a missing `action_type`/`action` discriminator, missing coordinates
for a mouse action, missing text for a keyboard action, an unsupported
action type — yields `\x7b'type': 'error', 'message': ...\x7d`. -/
theorem extract_action_total :
    (∀ m, (List.lookup "type" (extract_action m)).isSome = true)
  ∧ extract_action .notBeta = errAction "Unexpected message type"
  ∧ extract_action (.betaMsg [.text "hello"])
      = errAction "No tool use found in message"
  ∧ extract_action (.betaMsg [.toolUse "t1" "browser" []])
      = errAction "Unexpected tool: browser"
  ∧ extract_action (.betaMsg [.toolUse "t1" "computer" []])
      = errAction "Action type not found in input data"
  ∧ extract_action (.betaMsg [.toolUse "t1" "computer"
        [("action", .str "mouse_move")]])
      = errAction "Invalid coordinate for mouse action"
  ∧ extract_action (.betaMsg [.toolUse "t1" "computer" [("action", .str "key")]])
      = errAction "Missing text for keyboard action"
  ∧ extract_action (.betaMsg [.toolUse "t1" "computer"
        [("action", .str "hover")]])
      = errAction "Unsupported action: hover" := by
  refine ⟨?_, rfl, rfl, rfl, rfl, rfl, rfl, rfl⟩
  intro m
  cases m with
  | notBeta => rfl
  | betaMsg content =>
    cases hf : findFirstToolUse content with
    | none => simp [extract_action, hf, errAction, List.lookup]
    | some tri =>
      obtain ⟨i, name, input⟩ := tri
      simp only [extract_action, hf]
      by_cases h1 : name = "finish_run"
      · rw [if_pos h1]; rfl
      · rw [if_neg h1]
        by_cases h2 : name = "computer"
        · rw [if_pos h2]
          rcases computerAction_shape input with ⟨e, he⟩ | ⟨v, tail, ht⟩
          · rw [he, lookup_type_errAction]; rfl
          · rw [ht]; simp [List.lookup]
        · rw [if_neg h2]
          rw [lookup_type_errAction]; rfl

/-- C10 (confirmed).  After every `_clean_screenshot_cache` run the cache
holds at most `max_cache_size` (10) entries (exactly
`min kept max_cache_size` where `kept` counts the unexpired entries), every
surviving entry has age at most `cache_ttl` (5 seconds; entries strictly
older are removed), and the survivors are exactly the newest unexpired
entries: the unexpired entries split, up to permutation, into the dropped
ones and the retained ones, with every dropped timestamp at most every
retained timestamp. -/
theorem screenshot_cache_clean_spec (cache : List CacheEntry) (now : ℚ) :
    cache_ttl = 5
  ∧ max_cache_size = 10
  ∧ (clean_screenshot_cache cache now).length
      = min (cache.filter fun e => !(decide (now - e.ts > cache_ttl))).length
          max_cache_size
  ∧ (∀ e ∈ clean_screenshot_cache cache now, now - e.ts ≤ cache_ttl)
  ∧ ∃ dropped,
      (dropped ++ clean_screenshot_cache cache now).Perm
        (cache.filter fun e => !(decide (now - e.ts > cache_ttl)))
      ∧ ∀ d ∈ dropped, ∀ r ∈ clean_screenshot_cache cache now, d.ts ≤ r.ts := by
  have hdef : clean_screenshot_cache cache now =
      if max_cache_size <
          (cache.filter fun e => !(decide (now - e.ts > cache_ttl))).length then
        ((cache.filter fun e => !(decide (now - e.ts > cache_ttl))).mergeSort
            tsLe).drop
          ((cache.filter fun e => !(decide (now - e.ts > cache_ttl))).length
            - max_cache_size)
      else cache.filter fun e => !(decide (now - e.ts > cache_ttl)) := rfl
  set kept := cache.filter fun e => !(decide (now - e.ts > cache_ttl)) with hkept
  have hmem : ∀ e ∈ kept, now - e.ts ≤ cache_ttl := by
    intro e he
    have hp := List.of_mem_filter he
    simp only [Bool.not_eq_true', decide_eq_false_iff_not, not_lt] at hp
    exact hp
  have htrans : ∀ a b c : CacheEntry,
      tsLe a b = true → tsLe b c = true → tsLe a c = true := by
    intro a b c hab hbc
    simp only [tsLe, decide_eq_true_eq] at hab hbc ⊢
    exact le_trans hab hbc
  have htotal : ∀ a b : CacheEntry, (tsLe a b || tsLe b a) = true := by
    intro a b
    simp only [tsLe, Bool.or_eq_true, decide_eq_true_eq]
    exact le_total a.ts b.ts
  by_cases hlen : max_cache_size < kept.length
  · rw [hdef, if_pos hlen]
    have hperm : (kept.mergeSort tsLe).Perm kept := List.mergeSort_perm kept tsLe
    have hlen' : (kept.mergeSort tsLe).length = kept.length := hperm.length_eq
    have hsorted : List.Pairwise (fun a b => tsLe a b = true)
        (kept.mergeSort tsLe) := List.sorted_mergeSort htrans htotal kept
    refine ⟨rfl, rfl, ?_, ?_, ?_⟩
    · rw [List.length_drop, hlen']
      omega
    · intro e he
      exact hmem e (hperm.subset (List.mem_of_mem_drop he))
    · refine ⟨(kept.mergeSort tsLe).take (kept.length - max_cache_size), ?_, ?_⟩
      · rw [List.take_append_drop]
        exact hperm
      · intro d hd r hr
        have hsorted' : List.Pairwise (fun a b => tsLe a b = true)
            ((kept.mergeSort tsLe).take (kept.length - max_cache_size)
              ++ (kept.mergeSort tsLe).drop (kept.length - max_cache_size)) := by
          rw [List.take_append_drop]
          exact hsorted
        have h3 := (List.pairwise_append.mp hsorted').2.2 d hd r hr
        simpa [tsLe] using h3
  · rw [hdef, if_neg hlen]
    refine ⟨rfl, rfl, ?_, hmem, ⟨[], by simp, by simp⟩⟩
    have : kept.length ≤ max_cache_size := Nat.le_of_not_lt hlen
    omega

/-- Witness for C10: the cache-cleaning theorem instantiated at a concrete
13-entry cache (two expired entries, eleven fresh ones forcing the
size-bound eviction) observed at `exNow`. -/
theorem screenshot_cache_clean_spec_witness :
    cache_ttl = 5
  ∧ max_cache_size = 10
  ∧ (clean_screenshot_cache exCache exNow).length
      = min (exCache.filter fun e => !(decide (exNow - e.ts > cache_ttl))).length
          max_cache_size
  ∧ (∀ e ∈ clean_screenshot_cache exCache exNow, exNow - e.ts ≤ cache_ttl)
  ∧ ∃ dropped,
      (dropped ++ clean_screenshot_cache exCache exNow).Perm
        (exCache.filter fun e => !(decide (exNow - e.ts > cache_ttl)))
      ∧ ∀ d ∈ dropped, ∀ r ∈ clean_screenshot_cache exCache exNow, d.ts ≤ r.ts :=
  screenshot_cache_clean_spec exCache exNow

/-- C3 (code bug).  When every attempt fails with a retryable 503,
`get_next_action` makes exactly `max_retries = 3` attempts and sleeps
strictly increasing delays (`retry_delay *= (2 + random())`, so each delay
exceeds the previous one for any jitter draws in `[0, 1)` — and the
pre-jitter delays double each time); a non-retryable status (400) causes no
further attempts and no sleeps.  But on exhaustion the caller does NOT
receive a typed `AnthropicError` carrying status 503: the `AnthropicError`
raised at anthropic.py line 494 is caught by the function's own
`except AnthropicError` handler (line 496) and re-raised as a plain
`Exception` (line 506) whose message merely embeds the rendered error text,
dropping the `status_code` attribute — contradicting the docstring
`Raises: AnthropicError: For API-related errors` (lines 361-363). -/
theorem retry_exhaustion_behavior (j0 j1 j2 : ℚ)
    (h0 : 0 ≤ j0) (h1 : 0 ≤ j1) (h2 : 0 ≤ j2) :
    (getNextActionAttempts
        [(.apiErr "Error code: 503" (some 503), j0),
         (.apiErr "Error code: 503" (some 503), j1),
         (.apiErr "Error code: 503" (some 503), j2)]).attempts = 3
  ∧ (getNextActionAttempts
        [(.apiErr "Error code: 503" (some 503), j0),
         (.apiErr "Error code: 503" (some 503), j1),
         (.apiErr "Error code: 503" (some 503), j2)]).sleeps
      = [2 + j0, (2 + j0) * (2 + j1), (2 + j0) * (2 + j1) * (2 + j2)]
  ∧ List.Chain' (· < ·)
      (getNextActionAttempts
        [(.apiErr "Error code: 503" (some 503), j0),
         (.apiErr "Error code: 503" (some 503), j1),
         (.apiErr "Error code: 503" (some 503), j2)]).sleeps
  ∧ (getNextActionAttempts
        [(.apiErr "Error code: 503" (some 503), j0),
         (.apiErr "Error code: 503" (some 503), j1),
         (.apiErr "Error code: 503" (some 503), j2)]).final
      = .raisedGeneric
          "Anthropic API Error: API Error: Anthropic API Error: API error: API Error: Anthropic API Error: API error: Error code: 503"
  ∧ (getNextActionAttempts [(.apiErr "Bad request" (some 400), j0)]).attempts = 1
  ∧ (getNextActionAttempts [(.apiErr "Bad request" (some 400), j0)]).sleeps = []
  ∧ (getNextActionAttempts [(.apiErr "Bad request" (some 400), j0)]).final
      = .raisedGeneric
          "Anthropic API Error: API Error: Anthropic API Error: API error: API Error: Anthropic API Error: API error: Bad request" := by
  have hcomp : getNextActionAttempts
      [(.apiErr "Error code: 503" (some 503), j0),
       (.apiErr "Error code: 503" (some 503), j1),
       (.apiErr "Error code: 503" (some 503), j2)]
      = ⟨3, [2 + j0, (2 + j0) * (2 + j1), (2 + j0) * (2 + j1) * (2 + j2)],
          raiseAfterLoop
            (some "API Error: Anthropic API Error: API error: Error code: 503")
            (some 503)⟩ := by
    simp [getNextActionAttempts, retryLoop, max_retries, isRetryable]
  have hcomp400 : getNextActionAttempts [(.apiErr "Bad request" (some 400), j0)]
      = ⟨1, [],
          raiseAfterLoop
            (some "API Error: Anthropic API Error: API error: Bad request")
            (some 400)⟩ := by
    simp [getNextActionAttempts, retryLoop, max_retries, isRetryable]
  have hd1 : (0 : ℚ) < 2 + j0 := by linarith
  refine ⟨by rw [hcomp], by rw [hcomp], ?_, by rw [hcomp]; rfl,
    by rw [hcomp400], by rw [hcomp400], by rw [hcomp400]; rfl⟩
  rw [hcomp]
  simp only [List.chain'_cons, List.chain'_singleton, and_true]
  have hd2 : (0 : ℚ) < (2 + j0) * (2 + j1) := mul_pos hd1 (by linarith)
  constructor
  · have h12 : (1 : ℚ) < 2 + j1 := by linarith
    calc 2 + j0 = (2 + j0) * 1 := (mul_one _).symm
    _ < (2 + j0) * (2 + j1) := mul_lt_mul_of_pos_left h12 hd1
  · have h13 : (1 : ℚ) < 2 + j2 := by linarith
    calc (2 + j0) * (2 + j1) = (2 + j0) * (2 + j1) * 1 := (mul_one _).symm
    _ < (2 + j0) * (2 + j1) * (2 + j2) := mul_lt_mul_of_pos_left h13 hd2

/-- Witness for C3: the retry theorem applied at zero jitter draws, each
nonnegativity hypothesis discharged. -/
theorem retry_exhaustion_behavior_witness :
    (getNextActionAttempts
        [(.apiErr "Error code: 503" (some 503), 0),
         (.apiErr "Error code: 503" (some 503), 0),
         (.apiErr "Error code: 503" (some 503), 0)]).attempts = 3
  ∧ List.Chain' (· < ·)
      (getNextActionAttempts
        [(.apiErr "Error code: 503" (some 503), 0),
         (.apiErr "Error code: 503" (some 503), 0),
         (.apiErr "Error code: 503" (some 503), 0)]).sleeps
  ∧ (getNextActionAttempts
        [(.apiErr "Error code: 503" (some 503), 0),
         (.apiErr "Error code: 503" (some 503), 0),
         (.apiErr "Error code: 503" (some 503), 0)]).final
      = .raisedGeneric
          "Anthropic API Error: API Error: Anthropic API Error: API error: API Error: Anthropic API Error: API error: Error code: 503" :=
  ⟨(retry_exhaustion_behavior 0 0 0 le_rfl le_rfl le_rfl).1,
   (retry_exhaustion_behavior 0 0 0 le_rfl le_rfl le_rfl).2.2.1,
   (retry_exhaustion_behavior 0 0 0 le_rfl le_rfl le_rfl).2.2.2.1⟩

/-- C4 (code bug).  Whenever `perform_action` returns a truthy screenshot
string, the screenshot-handling block of `run_agent` reads the name `region`
(store.py line 322), which is assigned nowhere in the function and is not a
module global, so the block raises `NameError` before the screenshot message
is built; the `except` handler then appends a plain user text message
`Action failed: name 'region' is not defined` — never the claimed
`tool_result`/image message `buildScreenshotMsg` (which does contain an
`image/webp` block, as the last conjunct shows). -/
theorem run_agent_screenshot_append_bug (tuid screenshot : String)
    (h : screenshot.isEmpty = false) :
    regionNameResolves = false
  ∧ screenshotBranchAppended tuid screenshot
      = [.dict "user"
          (.blocks [.dict (.text "Action failed: name 'region' is not defined")])]
  ∧ (screenshotBranchAppended tuid screenshot).all
      (fun m => !(msgHasToolResultImage m)) = true
  ∧ msgHasToolResultImage (buildScreenshotMsg tuid screenshot) = true := by
  have hr : regionNameResolves = false := rfl
  have happ : screenshotBranchAppended tuid screenshot
      = [.dict "user"
          (.blocks [.dict (.text "Action failed: name 'region' is not defined")])] := by
    simp [screenshotBranchAppended, screenshotTryBlock, h, hr]
  refine ⟨hr, happ, ?_, rfl⟩
  rw [happ]
  rfl

/-- Witness for C4: the screenshot-append theorem applied at a concrete
(non-empty) screenshot string and tool-use id. -/
theorem run_agent_screenshot_append_bug_witness :
    regionNameResolves = false
  ∧ screenshotBranchAppended "toolu_01" "aGVsbG8="
      = [.dict "user"
          (.blocks [.dict (.text "Action failed: name 'region' is not defined")])]
  ∧ (screenshotBranchAppended "toolu_01" "aGVsbG8=").all
      (fun m => !(msgHasToolResultImage m)) = true
  ∧ msgHasToolResultImage (buildScreenshotMsg "toolu_01" "aGVsbG8=") = true :=
  run_agent_screenshot_append_bug "toolu_01" "aGVsbG8=" rfl
